import Mathlib

/-!
Verification development for the Maya Python debug adapter
(`src/adapter/__main__.py`), a relay between an editor debugger, the
Maya command port, and a debugpy debug engine injected into Maya.

The Python module is shallowly embedded below: each handler or loop
becomes a pure Lean function over explicit state, message records, and
character streams.  The `util` module of the repository is not part of
the provided sources; the constants and helpers it exports
(`CONTENT_HEADER`, `INITIALIZE_RESPONSE`, `ATTACH_ARGS`, the code
templates and the re-exported `os.path` helpers) are modelled from the
specification and are marked as such in their doc comments.
-/

namespace MayaAdapter

/-! ## Framed stream codec -/

/-- Modelled from the spec: `util.CONTENT_HEADER` (the `util` module is not
under `src/`).  Per the spec this is the fixed textual header token of the
framing protocol, `header token + decimal byte length + CRLFCRLF`; the
debug-adapter-protocol token is `Content-Length: `. -/
def CONTENT_HEADER : String := "Content-Length: "

/-- The frame written by `debugpy_send_loop` (src lines 253-254): first
`CONTENT_HEADER + str(len(msg)) + CRLFCRLF`, then the message itself, both
UTF-8 encoded.  Note that Python `len(msg)` is the number of characters of
the string, not the number of bytes of its UTF-8 encoding. -/
def encodeFrame (msg : String) : String :=
  CONTENT_HEADER ++ toString msg.length ++ "\r\n\r\n" ++ msg

/-- The byte length of the UTF-8 encoding of a body, which is what the spec
requires the declared length to equal. -/
def encodedByteCount (msg : String) : Nat :=
  msg.utf8ByteSize

/-! ## Frame decoder (the receive loop of `start_debugging`, src lines 203-234)

The stream delivered by the socket is modelled as a `List Char`: the
characters available before end-of-stream.  `fstream.readline()` at
end-of-stream returns the empty string immediately (it does not block and
does not raise). -/

/-- Python `fstream.readline()`: the line up to and including the newline
character, together with the rest of the stream.  At end-of-stream it
returns the empty line and consumes nothing. -/
def readline : List Char → List Char × List Char
  | [] => ([], [])
  | c :: rest =>
    if c = '\n' then ([c], rest)
    else
      let p := readline rest
      (c :: p.1, p.2)

/-- Python `str.strip()` restricted to the whitespace characters that can
occur in a header line. -/
def stripChars (cs : List Char) : List Char :=
  ((cs.dropWhile Char.isWhitespace).reverse.dropWhile Char.isWhitespace).reverse

/-- Result of the header-reading loop (src lines 207-215): either the
declared content length when a blank line or end-of-stream terminates the
header block, or an error when `int(...)` raises on a malformed length. -/
inductive HeaderResult where
  | ok (content_length : Int) (rest : List Char)
  | err (rest : List Char)
deriving DecidableEq

/-- The inner header loop of `start_debugging`: read lines until a blank
line or end-of-stream, remembering the length declared by the last header
line that starts with `CONTENT_HEADER`.  `content_length` enters as the
current value of the Python variable (0 at the top of the outer loop). -/
def read_headers (content_length : Int) : List Char → HeaderResult
  | [] => .ok content_length []
  | c :: rest =>
    let p := readline (c :: rest)
    let header := stripChars p.1
    if header = [] then .ok content_length p.2
    else if CONTENT_HEADER.toList.isPrefixOf header then
      match (String.mk (header.drop CONTENT_HEADER.length)).toInt? with
      | some n => read_headers n p.2
      | none => .err p.2
    else read_headers content_length p.2
termination_by s => s.length
decreasing_by
  all_goals
  · have hle : ∀ s : List Char, (readline s).2.length ≤ s.length := by
      intro s
      induction s with
      | nil => simp [readline]
      | cons a as ih =>
        by_cases h : a = '\n'
        · simp [readline, h]
        · simp [readline, h]
          omega
    have h2 := hle rest
    by_cases h : c = '\n'
    · simp [readline, h]
    · simp [readline, h]
      omega

/-- The body-reading loop (src lines 219-223): `fstream.read(n)` is called
until `n` characters have accumulated.  When the stream holds at least `n`
characters the loop terminates with exactly the first `n` of them however
the reads are chunked; when the stream ends earlier, `fstream.read`
returns the empty string forever and the loop never terminates, which is
modelled as `none`. -/
def read_exact (n : Nat) (s : List Char) : Option (List Char × List Char) :=
  if s.length < n then none else some (s.take n, s.drop n)

/-- Outcome of one iteration of the outer `while True` receive loop. -/
inductive StepResult where
  | dispatched (msg : String)
  | noMessage
  | bodySpin
  | headerErr
deriving DecidableEq

/-- One iteration of the outer receive loop of `start_debugging`:
`content_length = 0`, run the header loop, then if a positive length was
declared read that many characters and dispatch them, otherwise fall
through with no message.  A malformed length raises and is caught by the
`except` clause (`headerErr`); a stream that ends inside the body leaves
the inner read loop running forever (`bodySpin`). -/
def receive_step (s : List Char) : StepResult × List Char :=
  match read_headers 0 s with
  | .err rest => (.headerErr, rest)
  | .ok cl rest =>
    if 0 < cl then
      match read_exact cl.toNat rest with
      | some p => (.dispatched (String.mk p.1), p.2)
      | none => (.bodySpin, rest)
    else (.noMessage, rest)

/-- The outer `while True` receive loop, run for `fuel` iterations.  The
boolean records whether the loop has exited (the `except` handler closed
the socket and broke out); `false` means the loop is still running after
`fuel` iterations (or can never exit, in the `bodySpin` case). -/
def receive_loop : Nat → List Char → List String × Bool
  | 0, _ => ([], false)
  | Nat.succ fuel, s =>
    match receive_step s with
    | (.dispatched m, rest) =>
      let p := receive_loop fuel rest
      (m :: p.1, p.2)
    | (.noMessage, rest) => receive_loop fuel rest
    | (.bodySpin, _) => ([], false)
    | (.headerErr, _) => ([], true)

/-! ## Data model of the messages the adapter inspects -/

/-- A host/port pair as found in the attach request arguments
(the `debugpy` and `maya` members of the attach arguments). -/
structure Endpoint where
  host : String
  port : Int
deriving DecidableEq

/-- The fields of the attach request arguments that the adapter reads:
`program`, `debugpy.host`/`debugpy.port`, `maya.host`/`maya.port`
(src lines 90-96, 116-136). -/
structure AttachArguments where
  program : String
  debugpy : Endpoint
  maya : Endpoint
deriving DecidableEq

/-- Modelled from the spec: the parsed form of `util.ATTACH_ARGS` after
`json.loads` (the `util` module is not under `src/`).  The template is
instantiated with the keyword arguments of the `format` call at src lines
91-96: `dir`, `hostname`, `port`, `filepath`.  The backslash doubling
applied to `dir` and `filepath` is JSON string escaping that the
subsequent `json.loads` undoes, so the parsed values are the plain
strings. -/
structure AttachArgsOut where
  dir : String
  hostname : String
  port : Int
  filepath : String
deriving DecidableEq

/-- The `arguments` member of a debugger message as far as the adapter
inspects it: the attach-shaped arguments, the rewritten arguments placed
into the forwarded attach message, or anything else (never read). -/
inductive MsgArguments where
  | attachArgs (a : AttachArguments)
  | rewritten (a : AttachArgsOut)
  | other
deriving DecidableEq

/-- A parsed message from the debugger (`json.loads(message)`), restricted
to the fields the adapter reads: `seq`, `command`, `arguments`. -/
structure DebuggerMessage where
  seq : Int
  command : String
  arguments : MsgArguments
deriving DecidableEq

/-- The global mutable state of the adapter: `processed_seqs` (src line 44) and
`run_code` (src line 47). -/
structure AdapterState where
  processed_seqs : List Int
  run_code : String
deriving DecidableEq

/-- The initial values of the globals: `processed_seqs = []`,
`run_code = ""` (src lines 44, 47). -/
def initial_state : AdapterState :=
  { processed_seqs := [], run_code := "" }

/-- Modelled from the spec: `util.INITIALIZE_RESPONSE` (the `util` module
is not under `src/`), the canned success response to the initialize
request.  The handler sends `json.dumps(json.loads(INITIALIZE_RESPONSE))`,
a whitespace normalization of the same value; the model uses one fixed
string for it. -/
def INITIALIZE_RESPONSE : String :=
  "\x7b\"type\": \"response\", \"request_seq\": 1, \"success\": true, \"command\": \"initialize\"\x7d"

/-! ### `os.path` helpers re-exported by `util` (posix form) -/

/-- Splits a character list at the last slash: the prefix up to and
including the last slash, and the remainder.  This is the raw split
underlying `os.path.split` before head normalization. -/
def splitRaw : List Char → List Char × List Char
  | [] => ([], [])
  | c :: rest =>
    let p := splitRaw rest
    if p.1.isEmpty then
      if c = '/' then ([c], rest) else ([], c :: p.2)
    else (c :: p.1, p.2)

/-- Drops trailing slashes. -/
def dropTrailingSlashes (cs : List Char) : List Char :=
  (cs.reverse.dropWhile (· = '/')).reverse

/-- Modelled from the spec: `util` re-exports `os.path.split`; the head is
stripped of trailing slashes unless it consists only of slashes. -/
def splitPath (p : String) : String × String :=
  let q := splitRaw p.toList
  let head := if ¬ q.1.isEmpty ∧ ¬ q.1.all (· = '/') then dropTrailingSlashes q.1 else q.1
  (String.mk head, String.mk q.2)

/-- Modelled from the spec: `util` re-exports `os.path.dirname`, the
directory part of a path (`directory(P)` in the words of the spec). -/
def dirname (p : String) : String :=
  (splitPath p).1

/-- Modelled from the spec: `util` re-exports `os.path.basename`. -/
def basename (p : String) : String :=
  (splitPath p).2

/-- The `file_name` argument of the run directive (src line 130):
`split(program)[1][:-3] or basename(split(program)[0])[:-3]` — the file
name without its three-character extension, falling back to the last
directory component when the path ends in a slash.  Python `s[:-3]` is
`String.dropRight 3`, and `x or y` picks `y` when `x` is empty. -/
def file_name_of (program : String) : String :=
  let t := (splitPath program).2.dropRight 3
  if t = "" then (basename (splitPath program).1).dropRight 3 else t

/-! ## The debugger-side handler `on_receive_from_debugger` (src lines 66-106) -/

/-- The rewritten attach arguments: `ATTACH_ARGS.format(...)` followed by
`json.loads` (src lines 91-96, 100).  See `AttachArgsOut` for the
modelling of the template. -/
def ATTACH_ARGS_format (config : AttachArguments) : AttachArgsOut :=
  { dir := dirname config.program
    hostname := config.debugpy.host
    port := config.debugpy.port
    filepath := config.program }

/-- Everything one call of `on_receive_from_debugger` does, in order:
the new global state, the strings sent to the debugger via
`interface.send`, the messages handed to threads spawned with
`run_in_new_thread(attach_to_maya, ...)`, the messages put on
`debugpy_send_queue`, and whether the handler raised (a malformed message
whose key lookups fail). -/
structure HandlerResult where
  state : AdapterState
  sentToDebugger : List String
  spawned : List DebuggerMessage
  enqueued : List DebuggerMessage
  raised : Bool
deriving DecidableEq

/-- Embedding of `on_receive_from_debugger` (src lines 66-106).  For `initialize`: send
the canned success response, append the `seq` of the request to
`processed_seqs`, and fall through to enqueue the original message.  For
`attach`: spawn `attach_to_maya` with the original parsed message (src
line 87, before any rewriting), then build the rewritten arguments,
shallow-copy the message, rebind its `arguments` to the rewrite, and
enqueue the rewritten message.  Any other command is enqueued unchanged.
An attach message without attach-shaped arguments makes the Python key
lookups raise before any state change. -/
def on_receive_from_debugger (st : AdapterState) (contents : DebuggerMessage) :
    HandlerResult :=
  if contents.command = "initialize" then
    { state := { st with processed_seqs := st.processed_seqs ++ [contents.seq] }
      sentToDebugger := [INITIALIZE_RESPONSE]
      spawned := []
      enqueued := [contents]
      raised := false }
  else if contents.command = "attach" then
    match contents.arguments with
    | .attachArgs config =>
      let new_args := ATTACH_ARGS_format config
      let contents2 := { contents with arguments := .rewritten new_args }
      { state := st
        sentToDebugger := []
        spawned := [contents]
        enqueued := [contents2]
        raised := false }
    | _ =>
      { state := st, sentToDebugger := [], spawned := [], enqueued := [],
        raised := true }
  else
    { state := st, sentToDebugger := [], spawned := [], enqueued := [contents],
      raised := false }

/-- The state evolution of the debugger-side handler over a sequence of
inbound debugger messages, starting from a given state. -/
def debugger_trace : AdapterState → List DebuggerMessage → AdapterState
  | st, [] => st
  | st, m :: rest => debugger_trace (on_receive_from_debugger st m).state rest

/-! ## The engine-side handler `on_receive_from_debugpy` (src lines 261-282) -/

/-- A parsed message from debugpy, restricted to the fields the handler
reads (the dict lookups of `request_seq` with default -1 and of
`command` with default the empty string), together
with the original serialized text that is forwarded verbatim. -/
structure EngineMessage where
  request_seq : Option Int
  command : Option String
  raw : String
deriving DecidableEq

/-- The observable effects of `on_receive_from_debugpy`, in program order:
a submission of code to Maya via `send_code_to_maya`, a verbatim forward
to the debugger via `interface.send`, or a suppression (the message is
only logged, never sent and never reported as an error). -/
inductive EngineEffect where
  | submitToMaya (code : String)
  | sendToDebugger (raw : String)
  | suppress (raw : String)
deriving DecidableEq

/-- Embedding of `on_receive_from_debugpy` (src lines 261-282): take `request_seq` with
default `-1` and `command` with default the empty string; if the command
is `configurationDone`, first submit the stored run directive to Maya;
then either suppress the message (its sequence number was already
answered locally) or forward it verbatim to the debugger.  The global
state is not modified. -/
def on_receive_from_debugpy (st : AdapterState) (message : EngineMessage) :
    List EngineEffect :=
  let seq : Int := message.request_seq.getD (-1)
  let cmd : String := message.command.getD ""
  (if cmd = "configurationDone" then [.submitToMaya st.run_code] else []) ++
  (if seq ∈ st.processed_seqs then [.suppress message.raw]
   else [.sendToDebugger message.raw])

/-- The verbatim forwards to the debugger contained in an effect list. -/
def sentRaws (effs : List EngineEffect) : List String :=
  effs.filterMap fun e =>
    match e with
    | .sendToDebugger r => some r
    | _ => none

/-- The suppressed messages contained in an effect list. -/
def suppressedRaws (effs : List EngineEffect) : List String :=
  effs.filterMap fun e =>
    match e with
    | .suppress r => some r
    | _ => none

/-- The Maya code submissions contained in an effect list. -/
def mayaSubmits (effs : List EngineEffect) : List String :=
  effs.filterMap fun e =>
    match e with
    | .submitToMaya c => some c
    | _ => none

/-- All Maya code submissions made while handling a sequence of engine
messages in a fixed state (the handler never changes the state). -/
def session_run_submissions (st : AdapterState) (msgs : List EngineMessage) :
    List String :=
  (msgs.map fun m => mayaSubmits (on_receive_from_debugpy st m)).flatten

/-! ## The attach orchestrator `attach_to_maya` (src lines 109-160) -/

/-- Modelled from the spec: `util.ATTACH_TEMPLATE` (the `util` module is
not under `src/`).  The spec places the exact text of injected source
templates out of scope; only its parameterization by the debug-engine
address (src lines 120-124) is modelled. -/
def ATTACH_TEMPLATE_format (host : String) (port : Int) : String :=
  "inject debugpy listening on " ++ host ++ ":" ++ toString port

/-- Modelled from the spec: `util.RUN_TEMPLATE` (the `util` module is not
under `src/`).  The spec places the exact text of injected source
templates out of scope; only its parameterization by the directory and
file name of the program (src lines 128-131) is modelled. -/
def RUN_TEMPLATE_format (dir file_name : String) : String :=
  "run " ++ file_name ++ " from " ++ dir

/-- The remediation text raised when the Maya command port cannot be
reached (src lines 144-152); the surrounding indentation whitespace of the
Python triple-quoted literal is elided. -/
def REMEDIATION (host : String) (port : Int) : String :=
  "\n\n\n\nPlease run the following command in Maya and try again:\n" ++
  "cmds.commandPort(name=\"" ++ host ++ ":" ++ toString port ++
  "\", sourceType=\"mel\")\n"

/-- Everything one run of `attach_to_maya` does.  `mayaSubmissions` lists
the code strings handed to `send_code_to_maya` (which wraps them in the
command syntax of the host before the socket write); `engineConnect` is the
address handed to `start_debugging`, `none` when no debug-engine
connection is ever attempted; `raisedDiagnostic` is the text of the raised
exception, which the debugger shows in its output. -/
structure AttachOutcome where
  run_code : String
  processExit : Bool
  raisedDiagnostic : Option String
  mayaSubmissions : List String
  engineConnect : Option Endpoint
deriving DecidableEq

/-- Embedding of `attach_to_maya` (src lines 109-160), with the outcome of the socket
connect to the Maya command port (refused connection or timeout both land in
the bare `except`) supplied as `connectOk`.  The attach code and the run
directive are formatted before the connection attempt; on failure the
process is terminated (`os._exit` on a helper thread) and the remediation
text raised; on success the attach code is submitted to Maya and
`start_debugging` is started on the debug-engine address. -/
def attach_to_maya (config : AttachArguments) (connectOk : Bool) : AttachOutcome :=
  let attach_code := ATTACH_TEMPLATE_format config.debugpy.host config.debugpy.port
  let run_code := RUN_TEMPLATE_format (dirname config.program) (file_name_of config.program)
  if connectOk then
    { run_code := run_code
      processExit := false
      raisedDiagnostic := none
      mayaSubmissions := [attach_code]
      engineConnect := some config.debugpy }
  else
    { run_code := run_code
      processExit := true
      raisedDiagnostic := some (REMEDIATION config.maya.host config.maya.port)
      mayaSubmissions := []
      engineConnect := none }

/-! ## The send loop `debugpy_send_loop` (src lines 237-258)

The queue is a FIFO consumed one item at a time; `None` is the sentinel.
The loop is modelled on the finite list of items the queue will yield,
each real message paired with whether its socket writes succeed. -/

/-- Why the send loop stopped consuming the modelled queue items. -/
inductive SendLoopExit where
  | sentinelStop
  | writeFailure (msg : String)
  | stillBlocked
deriving DecidableEq

/-- The observable behavior of a send-loop run: the frames written to the
debug-engine socket in order, the log lines, and why the loop stopped.
`stillBlocked` means the modelled items ran out while the loop was still
alive, blocked in `queue.get()`. -/
structure SendLoopResult where
  wireWrites : List String
  logs : List String
  exitReason : SendLoopExit
deriving DecidableEq

/-- A queue item the loop fully processes: a real message whose writes
succeed. -/
def itemOk (it : Option String × Bool) : Bool :=
  it.1.isSome && it.2

/-- Embedding of `debugpy_send_loop` (src lines 237-258): dequeue; a `None` item makes
the loop return; otherwise write the content header and the message (both
modelled together as `encodeFrame`) and log the send; an `OSError` on the
write logs `Debug socket closed.` and makes the loop return without
retrying. -/
def debugpy_send_loop : List (Option String × Bool) → SendLoopResult
  | [] => { wireWrites := [], logs := [], exitReason := .stillBlocked }
  | (none, _) :: _ => { wireWrites := [], logs := [], exitReason := .sentinelStop }
  | (some msg, ok) :: rest =>
    if ok then
      let r := debugpy_send_loop rest
      { wireWrites := encodeFrame msg :: r.wireWrites
        logs := ("Sent to debugpy: " ++ msg) :: r.logs
        exitReason := r.exitReason }
    else
      { wireWrites := []
        logs := ["Debug socket closed."]
        exitReason := .writeFailure msg }

end MayaAdapter

namespace MayaAdapter

/-! ## Theorems -/

/-- C1: the frame built by the send loop declares `len(msg)`, the number of
characters of the body, not the number of bytes of its UTF-8 encoding.  On
the one-character body `é`, whose UTF-8 encoding is two bytes, the frame
header declares length 1 while the encoded byte count is 2, so the declared
length does not equal the encoded byte count, contrary to the byte-exact
framing requirement of the spec. -/
theorem frame_declares_char_count_not_bytes :
    encodeFrame "é" = "Content-Length: 1\r\n\r\né" ∧
    encodedByteCount "é" = 2 ∧
    String.length "é" ≠ encodedByteCount "é" := by
  refine ⟨rfl, rfl, by decide⟩

/-- Helper: what one call of the engine-side handler submits to Maya. -/
theorem mayaSubmits_on_receive (st : AdapterState) (m : EngineMessage) :
    mayaSubmits (on_receive_from_debugpy st m) =
      if m.command.getD "" = "configurationDone" then [st.run_code] else [] := by
  by_cases hc : m.command.getD "" = "configurationDone" <;>
    by_cases hmem : m.request_seq.getD (-1) ∈ st.processed_seqs <;>
      simp [on_receive_from_debugpy, mayaSubmits, hc, hmem]

/-- Helper: the session submissions over a fixed state, one per
`configurationDone` message. -/
theorem session_submissions_count (st : AdapterState) (msgs : List EngineMessage) :
    session_run_submissions st msgs =
      List.replicate
        (msgs.countP fun x => decide (x.command = some "configurationDone"))
        st.run_code := by
  induction msgs with
  | nil => rfl
  | cons x xs ih =>
    have hcons : session_run_submissions st (x :: xs) =
        mayaSubmits (on_receive_from_debugpy st x) ++ session_run_submissions st xs := by
      simp [session_run_submissions]
    rw [hcons, ih, List.countP_cons, mayaSubmits_on_receive]
    by_cases hx : x.command = some "configurationDone"
    · have hg : x.command.getD "" = "configurationDone" := by rw [hx]; rfl
      simp [hx, hg]
      rw [List.replicate_succ]
    · have hg : ¬ x.command.getD "" = "configurationDone" := by
        intro hcon
        cases hc : x.command with
        | none => rw [hc] at hcon; exact absurd hcon (by decide)
        | some c =>
          rw [hc] at hcon
          simp at hcon
          exact hx (by rw [hc, hcon])
      simp [hx, hg]

/-- Helper: how one call of the debugger-side handler changes
`processed_seqs`. -/
theorem handler_processed_seqs (st : AdapterState) (m : DebuggerMessage) :
    (on_receive_from_debugger st m).state.processed_seqs =
      st.processed_seqs ++ (if m.command = "initialize" then [m.seq] else []) := by
  by_cases h : m.command = "initialize"
  · simp [on_receive_from_debugger, h]
  · by_cases h2 : m.command = "attach"
    · cases ha : m.arguments <;> simp [on_receive_from_debugger, h, h2, ha]
    · simp [on_receive_from_debugger, h, h2]

/-- Helper: over a whole inbound trace, `processed_seqs` accumulates
exactly the sequence numbers of the `initialize` requests, in order. -/
theorem trace_processed_seqs (msgs : List DebuggerMessage) (st : AdapterState) :
    (debugger_trace st msgs).processed_seqs =
      st.processed_seqs ++
        ((msgs.filter fun d => decide (d.command = "initialize")).map fun d => d.seq) := by
  induction msgs generalizing st with
  | nil => simp [debugger_trace]
  | cons m rest ih =>
    show (debugger_trace (on_receive_from_debugger st m).state rest).processed_seqs = _
    rw [ih, handler_processed_seqs, List.filter_cons]
    by_cases h : m.command = "initialize" <;> simp [h]

/-- C8: after end-of-stream the receive loop busy-spins.  `readline` at
end-of-stream returns the empty line immediately without blocking, the
header loop breaks with declared length 0, the iteration produces no
message and consumes nothing, and the outer `while True` loop repeats this
forever: for every number of iterations the loop has neither exited nor
dispatched anything, with no blocking call in between.  (The first half of
the claim does hold: end-of-stream and zero declared length yield
`noMessage`, not an error.) -/
theorem receive_loop_spins_at_eof :
    (∀ fuel : Nat, receive_loop fuel [] = ([], false)) ∧
    receive_step [] = (StepResult.noMessage, []) := by
  have hstep : receive_step [] = (StepResult.noMessage, []) := by
    simp [receive_step, read_headers]
  refine ⟨?_, hstep⟩
  intro fuel
  induction fuel with
  | zero => rfl
  | succ n ih =>
    show (match receive_step [] with
      | (.dispatched m, rest) =>
        let p := receive_loop n rest
        (m :: p.1, p.2)
      | (.noMessage, rest) => receive_loop n rest
      | (.bodySpin, _) => ([], false)
      | (.headerErr, _) => ([], true)) = ([], false)
    rw [hstep]
    exact ih

/-- C2: an inbound `initialize` request with sequence number `s` makes the
handler send exactly one synthesized success response to the debugger,
record `s` in `processed_seqs`, and still enqueue the original message on
the queue toward the debug engine; no debug-engine activity is started by
this branch (`attach_to_maya` is only ever spawned for `attach`), so the
response precedes any debug-engine connection. -/
theorem initialize_short_circuit (st : AdapterState) (m : DebuggerMessage)
    (h : m.command = "initialize") :
    (on_receive_from_debugger st m).sentToDebugger = [INITIALIZE_RESPONSE] ∧
    (on_receive_from_debugger st m).state.processed_seqs =
      st.processed_seqs ++ [m.seq] ∧
    (on_receive_from_debugger st m).enqueued = [m] ∧
    (on_receive_from_debugger st m).spawned = [] := by
  refine ⟨?_, ?_, ?_, ?_⟩ <;> simp [on_receive_from_debugger, h]

/-- Witness for C2 at a concrete initialize request with seq 1. -/
theorem initialize_short_circuit_witness :
    (on_receive_from_debugger initial_state
        { seq := 1, command := "initialize", arguments := MsgArguments.other }).sentToDebugger
      = [INITIALIZE_RESPONSE] ∧
    (on_receive_from_debugger initial_state
        { seq := 1, command := "initialize", arguments := MsgArguments.other }).state.processed_seqs
      = [1] :=
  let r := initialize_short_circuit initial_state
    { seq := 1, command := "initialize", arguments := MsgArguments.other } rfl
  ⟨r.1, r.2.1⟩

/-- C3: a message from the debug engine whose `request_seq` is in
`processed_seqs` is suppressed — nothing is sent to the debugger and the
message is only logged, not turned into an error; any other engine message
is forwarded verbatim (the original serialized text) to the debugger. -/
theorem engine_filter_by_pending (st : AdapterState) (m : EngineMessage) (s : Int)
    (hs : m.request_seq = some s) :
    (s ∈ st.processed_seqs →
      sentRaws (on_receive_from_debugpy st m) = [] ∧
      suppressedRaws (on_receive_from_debugpy st m) = [m.raw]) ∧
    (s ∉ st.processed_seqs →
      sentRaws (on_receive_from_debugpy st m) = [m.raw] ∧
      suppressedRaws (on_receive_from_debugpy st m) = []) := by
  constructor <;> intro hmem <;>
    by_cases hc : m.command.getD "" = "configurationDone" <;>
      simp [on_receive_from_debugpy, hs, hmem, hc, sentRaws, suppressedRaws]

/-- Witness for C3: with seq 1 pending, the response of the engine to
request 1 is suppressed. -/
theorem engine_filter_by_pending_witness :
    sentRaws (on_receive_from_debugpy { processed_seqs := [1], run_code := "" }
      { request_seq := some 1, command := some "initialize", raw := "resp1" }) = [] ∧
    suppressedRaws (on_receive_from_debugpy { processed_seqs := [1], run_code := "" }
      { request_seq := some 1, command := some "initialize", raw := "resp1" }) = ["resp1"] :=
  (engine_filter_by_pending { processed_seqs := [1], run_code := "" }
    { request_seq := some 1, command := some "initialize", raw := "resp1" } 1 rfl).1
    (by decide)

/-- C4: the attach message put on the queue carries rewritten arguments
holding exactly the directory of the program, the program path itself, and the
debug-engine host and port from the request; and the rewrite is
independent of the debugger-supplied host-application (`maya`) address, so
no host-application field leaks into the rewritten arguments (the
`AttachArgsOut` shape has no such field). -/
theorem attach_rewrite (st : AdapterState) (m : DebuggerMessage)
    (config : AttachArguments)
    (hc : m.command = "attach") (ha : m.arguments = MsgArguments.attachArgs config) :
    (on_receive_from_debugger st m).enqueued =
      [{ m with arguments := (MsgArguments.rewritten
          { dir := dirname config.program
            hostname := config.debugpy.host
            port := config.debugpy.port
            filepath := config.program }) }] ∧
    (∀ maya2 : Endpoint,
      (on_receive_from_debugger st
        { m with arguments := (MsgArguments.attachArgs
            { config with maya := maya2 }) }).enqueued =
      (on_receive_from_debugger st m).enqueued) := by
  constructor
  · simp [on_receive_from_debugger, hc, ha, ATTACH_ARGS_format]
  · intro maya2
    simp [on_receive_from_debugger, hc, ha, ATTACH_ARGS_format]

/-- Witness for C4 at a concrete attach request. -/
theorem attach_rewrite_witness :
    (on_receive_from_debugger initial_state
      { seq := 2, command := "attach", arguments := MsgArguments.attachArgs
          { program := "/projects/demo/main.py"
            debugpy := { host := "localhost", port := 5678 }
            maya := { host := "127.0.0.1", port := 7001 } } }).enqueued =
      [{ seq := 2, command := "attach", arguments := MsgArguments.rewritten
          { dir := "/projects/demo"
            hostname := "localhost"
            port := 5678
            filepath := "/projects/demo/main.py" } }] := by
  have h := (attach_rewrite initial_state
    { seq := 2, command := "attach", arguments := MsgArguments.attachArgs
        { program := "/projects/demo/main.py"
          debugpy := { host := "localhost", port := 5678 }
          maya := { host := "127.0.0.1", port := 7001 } } }
    { program := "/projects/demo/main.py"
      debugpy := { host := "localhost", port := 5678 }
      maya := { host := "127.0.0.1", port := 7001 } } rfl rfl).1
  rw [h]
  decide

/-- C5: a `configurationDone` message from the debug engine makes the
handler submit the stored run directive to the Maya command channel as its
first effect — before the message is forwarded onward — and it is the only
submission of that call; over an engine-message session containing exactly
one `configurationDone`, the stored run directive is submitted exactly
once. -/
theorem run_on_configuration_done (st : AdapterState) (m : EngineMessage)
    (msgs : List EngineMessage)
    (hm : m.command = some "configurationDone")
    (hcount : (msgs.countP fun x => decide (x.command = some "configurationDone")) = 1) :
    (∃ rest, on_receive_from_debugpy st m =
      EngineEffect.submitToMaya st.run_code :: rest) ∧
    mayaSubmits (on_receive_from_debugpy st m) = [st.run_code] ∧
    session_run_submissions st msgs = [st.run_code] := by
  have hg : m.command.getD "" = "configurationDone" := by rw [hm]; rfl
  refine ⟨?_, ?_, ?_⟩
  · refine ⟨if m.request_seq.getD (-1) ∈ st.processed_seqs
      then [EngineEffect.suppress m.raw] else [EngineEffect.sendToDebugger m.raw], ?_⟩
    by_cases hmem : m.request_seq.getD (-1) ∈ st.processed_seqs <;>
      simp [on_receive_from_debugpy, hg, hmem]
  · rw [mayaSubmits_on_receive]
    simp [hg]
  · rw [session_submissions_count, hcount]
    rfl

/-- Witness for C5 at a concrete session with one configurationDone. -/
theorem run_on_configuration_done_witness :
    session_run_submissions { processed_seqs := [1], run_code := "maya-run-directive" }
      [{ request_seq := some 3, command := some "configurationDone", raw := "cd" }]
      = ["maya-run-directive"] :=
  (run_on_configuration_done
    { processed_seqs := [1], run_code := "maya-run-directive" }
    { request_seq := some 3, command := some "configurationDone", raw := "cd" }
    [{ request_seq := some 3, command := some "configurationDone", raw := "cd" }]
    rfl (by decide)).2.2

/-- C6: when the connection to the Maya command port fails, `attach_to_maya`
terminates the process, raises the remediation text (which the debugger
shows as a diagnostic, naming the exact `cmds.commandPort` call to run),
submits nothing to Maya, and never reaches the `start_debugging` call, so
no debug-engine connection is ever attempted in that run. -/
theorem host_connect_failure_is_fatal (config : AttachArguments) :
    (attach_to_maya config false).processExit = true ∧
    (attach_to_maya config false).engineConnect = none ∧
    (attach_to_maya config false).raisedDiagnostic =
      some (REMEDIATION config.maya.host config.maya.port) ∧
    (attach_to_maya config false).mayaSubmissions = [] := by
  refine ⟨?_, ?_, ?_, ?_⟩ <;> simp [attach_to_maya]

/-- Witness for C6 at a concrete attach configuration. -/
theorem host_connect_failure_is_fatal_witness :
    (attach_to_maya
      { program := "/projects/demo/main.py"
        debugpy := { host := "localhost", port := 5678 }
        maya := { host := "127.0.0.1", port := 7001 } } false).processExit = true ∧
    (attach_to_maya
      { program := "/projects/demo/main.py"
        debugpy := { host := "localhost", port := 5678 }
        maya := { host := "127.0.0.1", port := 7001 } } false).engineConnect = none :=
  let r := host_connect_failure_is_fatal
    { program := "/projects/demo/main.py"
      debugpy := { host := "localhost", port := 5678 }
      maya := { host := "127.0.0.1", port := 7001 } }
  ⟨r.1, r.2.1⟩

/-- C7: the send loop writes exactly the frames of the messages dequeued
before the first sentinel or failing write, in FIFO order; it exits with
`sentinelStop` exactly when the first non-processed item is the sentinel,
with `writeFailure m` exactly when the first non-processed item is a
message `m` whose write fails (which is logged and never retried — nothing
after it is written), and otherwise it is still blocked on the queue. -/
theorem send_loop_behavior (items : List (Option String × Bool)) :
    (debugpy_send_loop items).wireWrites =
      ((items.takeWhile itemOk).map fun it => encodeFrame (it.1.getD "")) ∧
    ((debugpy_send_loop items).exitReason = SendLoopExit.sentinelStop ↔
      ∃ b rest, items.dropWhile itemOk = (none, b) :: rest) ∧
    (∀ m, ((debugpy_send_loop items).exitReason = SendLoopExit.writeFailure m ↔
      ∃ rest, items.dropWhile itemOk = (some m, false) :: rest)) ∧
    ((debugpy_send_loop items).exitReason = SendLoopExit.stillBlocked ↔
      items.dropWhile itemOk = []) ∧
    (∀ m, (debugpy_send_loop items).exitReason = SendLoopExit.writeFailure m →
      "Debug socket closed." ∈ (debugpy_send_loop items).logs) := by
  induction items with
  | nil => simp [debugpy_send_loop]
  | cons it rest ih =>
    obtain ⟨msg?, ok⟩ := it
    cases msg? with
    | none =>
      simp [debugpy_send_loop, itemOk, List.takeWhile_cons, List.dropWhile_cons]
    | some msg =>
      by_cases hok : ok
      · obtain ⟨ih1, ih2, ih3, ih4, ih5⟩ := ih
        subst hok
        refine ⟨?_, ?_, ?_, ?_, ?_⟩
        · simpa [debugpy_send_loop, itemOk, List.takeWhile_cons] using ih1
        · simpa [debugpy_send_loop, itemOk, List.dropWhile_cons] using ih2
        · intro m
          simpa [debugpy_send_loop, itemOk, List.dropWhile_cons] using ih3 m
        · simpa [debugpy_send_loop, itemOk, List.dropWhile_cons] using ih4
        · intro m hm
          have := ih5 m (by simpa [debugpy_send_loop] using hm)
          simp [debugpy_send_loop, this]
      · have hok2 : ok = false := by
          cases ok
          · rfl
          · exact absurd rfl hok
        subst hok2
        simp [debugpy_send_loop, itemOk, List.takeWhile_cons, List.dropWhile_cons]

/-- Witness for C7: a concrete queue whose second item is the sentinel. -/
theorem send_loop_behavior_witness :
    (debugpy_send_loop [(some "m1", true), (none, true)]).wireWrites
      = [encodeFrame "m1"] ∧
    (debugpy_send_loop [(some "m1", true), (none, true)]).exitReason
      = SendLoopExit.sentinelStop := by
  have h := send_loop_behavior [(some "m1", true), (none, true)]
  refine ⟨?_, ?_⟩
  · rw [h.1]
    rfl
  · exact (h.2.1).2 ⟨true, [], by decide⟩

/-- C9: over any inbound debugger trace whose requests carry non-negative
sequence numbers (as the protocol mandates), every entry of
`processed_seqs` is a non-negative number taken from an `initialize`
request; hence an engine message lacking `request_seq`, which the handler
defaults to `-1`, can never match a recorded entry and is always forwarded
to the debugger. -/
theorem missing_request_seq_forwarded (msgs : List DebuggerMessage)
    (m : EngineMessage)
    (hseqs : ∀ d ∈ msgs, 0 ≤ d.seq) (hm : m.request_seq = none) :
    (∀ s ∈ (debugger_trace initial_state msgs).processed_seqs, 0 ≤ s) ∧
    (∀ s ∈ (debugger_trace initial_state msgs).processed_seqs,
      ∃ d ∈ msgs, d.command = "initialize" ∧ d.seq = s) ∧
    sentRaws (on_receive_from_debugpy (debugger_trace initial_state msgs) m)
      = [m.raw] := by
  have htr := trace_processed_seqs msgs initial_state
  have hmem : ∀ s ∈ (debugger_trace initial_state msgs).processed_seqs,
      ∃ d ∈ msgs, d.command = "initialize" ∧ d.seq = s := by
    intro s hs
    rw [htr] at hs
    simp only [initial_state, List.nil_append, List.mem_map, List.mem_filter,
      decide_eq_true_eq] at hs
    obtain ⟨d, ⟨hd, hinit⟩, hseq⟩ := hs
    exact ⟨d, hd, hinit, hseq⟩
  have hnonneg : ∀ s ∈ (debugger_trace initial_state msgs).processed_seqs,
      0 ≤ s := by
    intro s hs
    obtain ⟨d, hd, _, hseq⟩ := hmem s hs
    exact hseq ▸ hseqs d hd
  refine ⟨hnonneg, hmem, ?_⟩
  have hnot : (-1 : Int) ∉ (debugger_trace initial_state msgs).processed_seqs := by
    intro hcon
    have := hnonneg _ hcon
    omega
  by_cases hc : m.command.getD "" = "configurationDone" <;>
    simp [on_receive_from_debugpy, hm, hc, hnot, sentRaws]

/-- Witness for C9 after one concrete initialize request. -/
theorem missing_request_seq_forwarded_witness :
    sentRaws (on_receive_from_debugpy
      (debugger_trace initial_state
        [{ seq := 1, command := "initialize", arguments := MsgArguments.other }])
      { request_seq := none, command := some "output", raw := "evt" }) = ["evt"] :=
  (missing_request_seq_forwarded
    [{ seq := 1, command := "initialize", arguments := MsgArguments.other }]
    { request_seq := none, command := some "output", raw := "evt" }
    (by decide) rfl).2.2

/-- C10: for an attach request, the message handed to the spawned
`attach_to_maya` thread is the original parsed message, whose arguments
are still the debugger-supplied attach arguments (host-application
address, debug-engine address, program path); the rewrite only rebinds
the `arguments` of a shallow copy, which is what gets enqueued. -/
theorem attach_spawned_message_unchanged (st : AdapterState)
    (m : DebuggerMessage) (config : AttachArguments)
    (hc : m.command = "attach") (ha : m.arguments = MsgArguments.attachArgs config) :
    (on_receive_from_debugger st m).spawned = [m] ∧
    (∀ d ∈ (on_receive_from_debugger st m).spawned,
      d.arguments = MsgArguments.attachArgs config) ∧
    (on_receive_from_debugger st m).enqueued =
      [{ m with arguments := MsgArguments.rewritten (ATTACH_ARGS_format config) }] := by
  refine ⟨?_, ?_, ?_⟩ <;> simp [on_receive_from_debugger, hc, ha]

/-- Witness for C10 at a concrete attach request. -/
theorem attach_spawned_message_unchanged_witness :
    (on_receive_from_debugger initial_state
      { seq := 4, command := "attach", arguments := MsgArguments.attachArgs
          { program := "/work/anim/scene.py"
            debugpy := { host := "localhost", port := 5678 }
            maya := { host := "10.0.0.8", port := 7001 } } }).spawned =
      [{ seq := 4, command := "attach", arguments := MsgArguments.attachArgs
          { program := "/work/anim/scene.py"
            debugpy := { host := "localhost", port := 5678 }
            maya := { host := "10.0.0.8", port := 7001 } } }] :=
  (attach_spawned_message_unchanged initial_state
    { seq := 4, command := "attach", arguments := MsgArguments.attachArgs
        { program := "/work/anim/scene.py"
          debugpy := { host := "localhost", port := 5678 }
          maya := { host := "10.0.0.8", port := 7001 } } }
    { program := "/work/anim/scene.py"
      debugpy := { host := "localhost", port := 5678 }
      maya := { host := "10.0.0.8", port := 7001 } } rfl rfl).1

end MayaAdapter
